import Mathlib

/-!
Shallow embedding of the video-object-tracker repository
(src/detect_ball.py, src/ball_trajectory_video.py,
src/universal_object_tracker.py).

Modelling conventions:
* Frames are modelled after the colour-space conversion step, as grids of
  HSV pixels (the claims are all phrased over hue/saturation/value
  triples); `cv2.cvtColor(frame, COLOR_BGR2HSV)` is the representation
  boundary.
* Binary masks are grids of `Bool`; `cv2.inRange` is inclusive on both
  bounds.  Morphological erosion treats out-of-bounds neighbours as
  foreground and dilation treats them as background (the library's
  default border behaviour for these operations).
* `cv2.findContours` with external retrieval is modelled as the list of
  8-connected components of the cleaned mask; `cv2.contourArea` and the
  image moments of a region are modelled over the region's pixels
  (area = pixel count, m10/m01 = coordinate sums).
* Python `int(...)` truncation of the non-negative centroid quotients is
  Nat division; `round(x, 1)` is rounding to the nearest tenth.
* Exceptions are modelled with `Option`: a `none` result of a fallible
  operation is an uncaught exception (e.g. `int(nan)` raised by pandas
  `.max()` on an empty column), not a value.
* Interactive preview windows and key-press handling (pause/quit) are
  incidental UI and are not modelled; the recorder loops run over the
  full decoded frame list.
-/

/-- One pixel in the cylindrical hue/saturation/value representation. -/
structure HSV where
  hue : Nat
  sat : Nat
  vch : Nat
deriving DecidableEq, Repr

/-- A frame after colour conversion: rows of HSV pixels (row y, column x). -/
abbrev HFrame := List (List HSV)

/-- Pixel access, padding with a zero pixel outside the stored grid. -/
def pixAt (f : HFrame) (x y : Nat) : HSV := (f.getD y []).getD x ⟨0, 0, 0⟩

/-- Frame width (length of the first row, as for a rectangular array). -/
def frameW (f : HFrame) : Nat := (f.getD 0 []).length

/-- Frame height (number of rows). -/
def frameH (f : HFrame) : Nat := f.length

/-- The cv2.inRange test for one pixel: inclusive bounds on all channels. -/
def inRangeB (lo hi p : HSV) : Bool :=
  decide (lo.hue ≤ p.hue) && decide (p.hue ≤ hi.hue) &&
  decide (lo.sat ≤ p.sat) && decide (p.sat ≤ hi.sat) &&
  decide (lo.vch ≤ p.vch) && decide (p.vch ≤ hi.vch)

/-- First yellow range of detect_yellow_ball: lower bound [20,100,100]. -/
def yLo1 : HSV := ⟨20, 100, 100⟩

/-- First yellow range of detect_yellow_ball: upper bound [30,255,255]. -/
def yHi1 : HSV := ⟨30, 255, 255⟩

/-- Second yellow range of detect_yellow_ball: lower bound [15,50,50]. -/
def yLo2 : HSV := ⟨15, 50, 50⟩

/-- Second yellow range of detect_yellow_ball: upper bound [35,255,255]. -/
def yHi2 : HSV := ⟨35, 255, 255⟩

/-- The combined yellow mask of detect_yellow_ball:
`mask = bitwise_or(inRange(hsv, r1), inRange(hsv, r2))`. -/
def yellowMask (f : HFrame) : Nat → Nat → Bool :=
  fun x y => inRangeB yLo1 yHi1 (pixAt f x y) || inRangeB yLo2 yHi2 (pixAt f x y)

/-- A binary mask materialised as a grid of booleans. -/
abbrev MaskGrid := List (List Bool)

/-- Evaluate a mask function on every pixel of a w×h grid. -/
def materialize (m : Nat → Nat → Bool) (w h : Nat) : MaskGrid :=
  (List.range h).map fun y => (List.range w).map fun x => m x y

/-- Read a materialised mask, out-of-grid positions reading as false. -/
def maskGet (g : MaskGrid) (x y : Nat) : Bool := (g.getD y []).getD x false

/-- The offsets of a k×k structuring element anchored at its centre. -/
def kernelOffsets (k : Nat) : List (Int × Int) :=
  (List.range k).flatMap fun i =>
    (List.range k).map fun j => ((i : Int) - (k / 2 : Nat), (j : Int) - (k / 2 : Nat))

/-- Erosion with a k×k all-ones kernel; outside the image counts as
foreground, so the border never erodes (the default border value). -/
def erodeG (g : MaskGrid) (w h k : Nat) : MaskGrid :=
  materialize
    (fun x y => (kernelOffsets k).all fun d =>
      let xi := (x : Int) + d.1
      let yi := (y : Int) + d.2
      if 0 ≤ xi ∧ xi < (w : Int) ∧ 0 ≤ yi ∧ yi < (h : Int) then
        maskGet g xi.toNat yi.toNat
      else true)
    w h

/-- Dilation with a k×k all-ones kernel; outside the image counts as
background. -/
def dilateG (g : MaskGrid) (w h k : Nat) : MaskGrid :=
  materialize
    (fun x y => (kernelOffsets k).any fun d =>
      let xi := (x : Int) + d.1
      let yi := (y : Int) + d.2
      if 0 ≤ xi ∧ xi < (w : Int) ∧ 0 ≤ yi ∧ yi < (h : Int) then
        maskGet g xi.toNat yi.toNat
      else false)
    w h

/-- morphologyEx MORPH_OPEN then MORPH_CLOSE on the raw mask:
opening = erode then dilate, closing = dilate then erode. -/
def cleanMask (m : Nat → Nat → Bool) (w h k : Nat) : MaskGrid :=
  erodeG (dilateG (dilateG (erodeG (materialize m w h) w h k) w h k) w h k) w h k

/-- The foreground pixel coordinates of a mask grid, in row-major order. -/
def maskPoints (g : MaskGrid) (w h : Nat) : List (Nat × Nat) :=
  (List.range h).flatMap fun y =>
    (List.range w).filterMap fun x => if maskGet g x y then some (x, y) else none

/-- Adjacency of two distinct grid points in the 8-neighbourhood sense. -/
def adj8 (p q : Nat × Nat) : Bool :=
  decide (p ≠ q) && decide (p.1 ≤ q.1 + 1) && decide (q.1 ≤ p.1 + 1) &&
  decide (p.2 ≤ q.2 + 1) && decide (q.2 ≤ p.2 + 1)

/-- One breadth step of region growing: adjoin every mask point adjacent
to the current region that is not yet in it. -/
def growStep (pts s : List (Nat × Nat)) : List (Nat × Nat) :=
  s ++ pts.filter fun q => !(decide (q ∈ s)) && s.any fun p => adj8 p q

/-- Iterate region growing to a fixpoint (fuel-bounded; the fuel
`pts.length` always suffices since each productive step adds a point). -/
def growN (pts : List (Nat × Nat)) : Nat → List (Nat × Nat) → List (Nat × Nat)
  | 0, s => s
  | n + 1, s =>
      let s2 := growStep pts s
      if s2.length = s.length then s else growN pts n s2

/-- The connected component of the mask containing a given point. -/
def compOf (pts : List (Nat × Nat)) (p : Nat × Nat) : List (Nat × Nat) :=
  growN pts pts.length [p]

/-- Worker for component extraction: scan the points, opening a new
component at every point not yet covered. -/
def componentsGo (all : List (Nat × Nat)) :
    List (Nat × Nat) → List (List (Nat × Nat)) → List (List (Nat × Nat))
  | [], acc => acc.reverse
  | p :: rest, acc =>
      if acc.any fun c => decide (p ∈ c) then componentsGo all rest acc
      else componentsGo all rest (compOf all p :: acc)

/-- The 8-connected components of the mask's foreground (the model of
findContours with external retrieval). -/
def components (pts : List (Nat × Nat)) : List (List (Nat × Nat)) :=
  componentsGo pts pts []

/-- cv2.contourArea of a region, modelled as its pixel count. -/
def contourArea (c : List (Nat × Nat)) : Nat := c.length

/-- Zeroth image moment of a region (pixel count). -/
def m00 (c : List (Nat × Nat)) : Nat := c.length

/-- First image moment in x (sum of x coordinates). -/
def m10 (c : List (Nat × Nat)) : Nat := (c.map fun p => p.1).sum

/-- First image moment in y (sum of y coordinates). -/
def m01 (c : List (Nat × Nat)) : Nat := (c.map fun p => p.2).sum

/-- Python max over the contours keyed by cv2.contourArea: the first
contour of maximal area (Python's max keeps the earliest maximum). -/
def largestComp : List (List (Nat × Nat)) → Option (List (Nat × Nat))
  | [] => none
  | c :: cs =>
      some (cs.foldl (fun best d => if contourArea best < contourArea d then d else best) c)

/-- The cleaned mask's components for a given raw mask. -/
def cleanedComponents (m : Nat → Nat → Bool) (w h k : Nat) : List (List (Nat × Nat)) :=
  components (maskPoints (cleanMask m w h k) w h)

/-- The shared tail of both detectors: morphology, contours, pick the
largest, area threshold (strict), then the guarded centroid. -/
def detectFromMask (m : Nat → Nat → Bool) (w h k minArea : Nat) : Option (Nat × Nat) :=
  match largestComp (cleanedComponents m w h k) with
  | none => none
  | some c =>
      if minArea < contourArea c then
        if m00 c ≠ 0 then some (m10 c / m00 c, m01 c / m00 c) else none
      else none

/-- detect_yellow_ball from src/detect_ball.py: the OR of the two yellow
range masks, 5×5 morphology, area threshold 50. -/
def detect_yellow_ball (f : HFrame) : Option (Nat × Nat) :=
  detectFromMask (yellowMask f) (frameW f) (frameH f) 5 50

/-- Variant detector stated by claim C10: identical pipeline but testing
only the second yellow range. -/
def detect_yellow_ball_range2_only (f : HFrame) : Option (Nat × Nat) :=
  detectFromMask (fun x y => inRangeB yLo2 yHi2 (pixAt f x y)) (frameW f) (frameH f) 5 50

/-- Per-colour entry of the configuration's colour catalog. -/
structure ColorConfig where
  hsv_lo : HSV
  hsv_hi : HSV
  track_color : Nat × Nat × Nat
  highlight_color : Nat × Nat × Nat
  jpName : String
deriving DecidableEq, Repr

/-- The config document's detection section. -/
structure DetectionConfig where
  min_area : Nat
  morphology_kernel_size : Nat
  blur_kernel_size : Nat
deriving DecidableEq, Repr

/-- The config document's trajectory section. -/
structure TrajectoryConfig where
  line_thickness : Nat
  highlight_circle_size : Nat
  fps : Nat
deriving DecidableEq, Repr

/-- A whole ColorTracker configuration document. -/
structure Config where
  colors : List (String × ColorConfig)
  detection : DetectionConfig
  trajectory : TrajectoryConfig
deriving DecidableEq, Repr

/-- Catalog key of the yellow profile. -/
def yellowKey : String := "yellow"

/-- Catalog key of the red profile. -/
def redKey : String := "red"

/-- Catalog key of the blue profile. -/
def blueKey : String := "blue"

/-- Catalog key of the green profile. -/
def greenKey : String := "green"

/-- Catalog key of the orange profile. -/
def orangeKey : String := "orange"

/-- Catalog key of the purple profile. -/
def purpleKey : String := "purple"

/-- ColorTracker.default_config: the built-in catalog of six colours and
the default detection and trajectory settings. -/
def default_config : Config :=
  { colors :=
      [ (yellowKey,
          { hsv_lo := ⟨15, 50, 50⟩, hsv_hi := ⟨35, 255, 255⟩
            track_color := (0, 255, 0), highlight_color := (0, 255, 255)
            jpName := "黄色" }),
        (redKey,
          { hsv_lo := ⟨0, 100, 100⟩, hsv_hi := ⟨10, 255, 255⟩
            track_color := (255, 0, 0), highlight_color := (0, 0, 255)
            jpName := "赤色" }),
        (blueKey,
          { hsv_lo := ⟨100, 100, 100⟩, hsv_hi := ⟨130, 255, 255⟩
            track_color := (0, 255, 255), highlight_color := (255, 0, 0)
            jpName := "青色" }),
        (greenKey,
          { hsv_lo := ⟨40, 100, 100⟩, hsv_hi := ⟨80, 255, 255⟩
            track_color := (255, 0, 255), highlight_color := (0, 255, 0)
            jpName := "緑色" }),
        (orangeKey,
          { hsv_lo := ⟨10, 100, 100⟩, hsv_hi := ⟨25, 255, 255⟩
            track_color := (0, 128, 255), highlight_color := (0, 165, 255)
            jpName := "オレンジ色" }),
        (purpleKey,
          { hsv_lo := ⟨130, 100, 100⟩, hsv_hi := ⟨160, 255, 255⟩
            track_color := (255, 255, 0), highlight_color := (128, 0, 128)
            jpName := "紫色" }) ]
    detection := { min_area := 50, morphology_kernel_size := 5, blur_kernel_size := 5 }
    trajectory := { line_thickness := 6, highlight_circle_size := 8, fps := 60 } }

/-- ColorTracker.load_config: the try/except around reading and parsing the
config document.  `none` is a missing or malformed document (the bare
except arm); any successfully parsed document is returned as-is. -/
def load_config (parsed : Option Config) : Config :=
  match parsed with
  | none => default_config
  | some c => c

/-- ColorTracker.__init__: with no config file the default is used, with a
config file the (possibly failing) load runs. -/
def tracker_init (cfgFile : Option (Option Config)) : Config :=
  match cfgFile with
  | none => default_config
  | some parsed => load_config parsed

/-- Fixed small-kernel Gaussian coefficient rows used for the blur
(sizes 3, 5, 7; size 1 and other sizes act as the identity row; the
source's default is 5 → row [1,4,6,4,1] over 16). -/
def gaussCoeffs (k : Nat) : List Nat :=
  if k = 3 then [1, 2, 1]
  else if k = 5 then [1, 4, 6, 4, 1]
  else if k = 7 then [1, 6, 15, 20, 15, 6, 1]
  else [1]

/-- Reflected border indexing (reflect-101): mirror across the edge
pixels, collapsing to 0 for degenerate extents. -/
def reflect101 (t : Int) (n : Nat) : Nat :=
  if n ≤ 1 then 0
  else if t < 0 then min (-t).toNat (n - 1)
  else if (n : Int) ≤ t then n - 1 - min (t.toNat - (n - 1)) (n - 1)
  else t.toNat

/-- One channel of the k×k Gaussian blur at one pixel, with
round-to-nearest normalisation. -/
def blurChannel (get : Nat → Nat → Nat) (w h k x y : Nat) : Nat :=
  let cs := gaussCoeffs k
  let r := k / 2
  let norm := cs.sum * cs.sum
  let s := (cs.enum.map fun ci =>
    (cs.enum.map fun cj =>
      ci.2 * cj.2 *
        get (reflect101 ((x : Int) + cj.1 - r) w) (reflect101 ((y : Int) + ci.1 - r) h)).sum).sum
  (s + norm / 2) / norm

/-- GaussianBlur of an HSV frame, channel by channel. -/
def gaussianBlur (f : HFrame) (k : Nat) : HFrame :=
  (List.range (frameH f)).map fun y =>
    (List.range (frameW f)).map fun x =>
      ⟨blurChannel (fun a b => (pixAt f a b).hue) (frameW f) (frameH f) k x y,
       blurChannel (fun a b => (pixAt f a b).sat) (frameW f) (frameH f) k x y,
       blurChannel (fun a b => (pixAt f a b).vch) (frameW f) (frameH f) k x y⟩

/-- Lower bound of the hard-coded second red range [170,100,100]. -/
def redLo2 : HSV := ⟨170, 100, 100⟩

/-- Upper bound of the hard-coded second red range [180,255,255]. -/
def redHi2 : HSV := ⟨180, 255, 255⟩

/-- The tracker's colour mask: the profile's configured range, and for
the red profile additionally the hard-coded wrap-side range, combined
with bitwise OR. -/
def trackerMask (color : String) (cc : ColorConfig) (hsv : HFrame) : Nat → Nat → Bool :=
  fun x y =>
    let base := inRangeB cc.hsv_lo cc.hsv_hi (pixAt hsv x y)
    if color = redKey then base || inRangeB redLo2 redHi2 (pixAt hsv x y) else base

/-- The frame the tracker's mask is built over: blurred when the
configured blur kernel size exceeds 1, the raw frame otherwise. -/
def blurOf (cfg : Config) (f : HFrame) : HFrame :=
  if 1 < cfg.detection.blur_kernel_size then gaussianBlur f cfg.detection.blur_kernel_size else f

/-- ColorTracker.detect_colored_object: unknown colours are reported and
yield no detection; otherwise blur, mask (with the red special case),
morphology with the configured kernel, configured area threshold, and
the guarded centroid. -/
def detect_colored_object (cfg : Config) (f : HFrame) (color : String) : Option (Nat × Nat) :=
  match List.lookup color cfg.colors with
  | none => none
  | some cc =>
      let hsv := blurOf cfg f
      detectFromMask (trackerMask color cc hsv) (frameW hsv) (frameH hsv)
        cfg.detection.morphology_kernel_size cfg.detection.min_area

/-- One persisted row of detected coordinates:
frame, timestamp_ms, x, y. -/
structure Row where
  frame : Nat
  timestamp_ms : ℚ
  x : Int
  y : Int
deriving DecidableEq, Repr

/-- Python `round(t, 1)`: round to the nearest tenth. -/
def round1 (q : ℚ) : ℚ := (round (q * 10) : ℤ) / 10

/-- The shared frame loop of both recorders: advance the 1-based frame
number on every decoded frame, compute the timestamp from the frame
rate, and append a row only on a detection. -/
def extractAux (detectF : HFrame → Option (Nat × Nat)) (fps : ℚ) :
    List HFrame → Nat → List Row
  | [], _ => []
  | f :: rest, n =>
      let fn := n + 1
      match detectF f with
      | some p =>
          { frame := fn, timestamp_ms := round1 (((fn : ℚ) - 1) * (1000 / fps)),
            x := p.1, y := p.2 } :: extractAux detectF fps rest fn
      | none => extractAux detectF fps rest fn

/-- extract_ball_coordinates from src/detect_ball.py: run the yellow
detector over the decoded frames (the rows later written as CSV). -/
def extract_ball_coordinates (frames : List HFrame) (fps : ℚ) : List Row :=
  extractAux detect_yellow_ball fps frames 0

/-- ColorTracker.extract_object_coordinates: the profile lookup before
the loop raises KeyError for a colour missing from the catalog
(modelled as `none`); otherwise the same frame loop runs with the
configured detector. -/
def extract_object_coordinates (cfg : Config) (color : String)
    (frames : List HFrame) (fps : ℚ) : Option (List Row) :=
  match List.lookup color cfg.colors with
  | none => none
  | some _ => some (extractAux (fun f => detect_colored_object cfg f color) fps frames 0)

/-- A rendering-side pixel buffer: rows of BGR triples. -/
abbrev RFrame := List (List (Nat × Nat × Nat))

/-- The all-zero canvas `np.zeros((height, width, 3))`. -/
def blankFrame (w h : Int) : RFrame :=
  List.replicate h.toNat (List.replicate w.toNat (0, 0, 0))

/-- One composed output frame, recorded as its drawing geometry: the
background buffer, the polyline's point list when one is drawn (two or
more points), and the highlighted current position when in bounds.
The drawing style (colours, thickness, radius, frame-number text) does
not affect the geometry and is not modelled. -/
structure OutFrame where
  background : RFrame
  polyline : Option (List (Int × Int))
  highlight : Option (Int × Int)
deriving DecidableEq, Repr

/-- The renderers' bounds test `0 <= x < width and 0 <= y < height`. -/
def inBoundsB (w h : Int) (p : Int × Int) : Bool :=
  decide (0 ≤ p.1) && decide (p.1 < w) && decide (0 ≤ p.2) && decide (p.2 < h)

/-- The growing point list of output frame i in the overlay renderers
(ball_trajectory_video.create_trajectory_overlay_video and
ColorTracker.create_trajectory_video): rows 0..i, keeping the
coordinates inside the canvas bounds. -/
def pointsAt (df : List Row) (w h : Int) (i : Nat) : List (Int × Int) :=
  ((df.take (i + 1)).map fun r => (r.x, r.y)).filter (inBoundsB w h)

/-- The point list claim C3 describes, written from the spec's words:
all log entries with frameIndex at most i+1, bounds-filtered. -/
def pointsAtSpec (df : List Row) (w h : Int) (i : Nat) : List (Int × Int) :=
  ((df.filter fun r => decide (r.frame ≤ i + 1)).map fun r => (r.x, r.y)).filter (inBoundsB w h)

/-- The growing point list of the standalone renderer
(ball_trajectory_video.create_trajectory_video): rows 0..i, with no
bounds filtering. -/
def pointsSimple (df : List Row) (i : Nat) : List (Int × Int) :=
  (df.take (i + 1)).map fun r => (r.x, r.y)

/-- Compose output frame i over a given background. -/
def renderAt (df : List Row) (w h : Int) (bg : RFrame) (i : Nat) : OutFrame :=
  let pts := pointsAt df w h i
  { background := bg
    polyline := if 1 < pts.length then some pts else none
    highlight :=
      match df.get? i with
      | some r => if inBoundsB w h (r.x, r.y) then some (r.x, r.y) else none
      | none => none }

/-- The background of output frame i when compositing over a source
video: the i-th decoded frame, or the blank canvas once decoding is
exhausted (`if not ret: frame = np.zeros(...)`). -/
def bgAt (srcFrames : List RFrame) (w h : Int) (i : Nat) : RFrame :=
  match srcFrames.get? i with
  | some f => f
  | none => blankFrame w h

/-- The output-frame loop `for i in range(len(df))`. -/
def renderLoop (df : List Row) (w h : Int) (bg : Nat → RFrame) : List OutFrame :=
  (List.range df.length).map fun i => renderAt df w h (bg i) i

/-- The `int(df['x'].max() - df['x'].min()) + 200` sizing of the overlay
renderers when no source video is supplied: on an empty log the column
maxima are NaN and `int(nan)` raises, modelled as `none`. -/
def sizeFromCoords (df : List Row) : Option (Int × Int) :=
  match (df.map fun r => r.x).max?, (df.map fun r => r.x).min?,
      (df.map fun r => r.y).max?, (df.map fun r => r.y).min? with
  | some xM, some xm, some yM, some ym => some (xM - xm + 200, yM - ym + 200)
  | _, _, _, _ => none

/-- The `int(max(df['x'].max(), df['y'].max())) + 100` sizing of
ball_trajectory_video.create_trajectory_video: raises on an empty log. -/
def sizeFromMax (df : List Row) : Option Int :=
  match ((df.map fun r => r.x) ++ (df.map fun r => r.y)).max? with
  | some m => some (m + 100)
  | none => none

/-- ColorTracker.create_trajectory_video (and, identically structured,
ball_trajectory_video.create_trajectory_overlay_video): with a source
video the canvas takes the video's dimensions and backgrounds come from
its decoded frames (blank once exhausted); without one the canvas is
sized from the log's coordinate extent, which raises on an empty log. -/
def create_trajectory_video_frames (df : List Row)
    (source : Option (List RFrame × Int × Int)) : Option (List OutFrame) :=
  match source with
  | some s => some (renderLoop df s.2.1 s.2.2 (bgAt s.1 s.2.1 s.2.2))
  | none =>
      match sizeFromCoords df with
      | none => none
      | some wh => some (renderLoop df wh.1 wh.2 fun _ => blankFrame wh.1 wh.2)

/-- A 1×1 frame whose pixel lies in the second yellow range but not the
first (hue 33 is in [15,35] but not [20,30]; saturation 80 meets the
second range's 50 bound but not the first range's 100 bound). -/
def c1yframe : HFrame := [[⟨33, 80, 80⟩]]

/-- A 1×1 frame whose pixel lies in the hard-coded wrap-side red range
[170,100,100]–[180,255,255]. -/
def c1rframe : HFrame := [[⟨175, 150, 150⟩]]

/-- The default red profile entry (its configured range misses hue 175). -/
def c1redCC : ColorConfig :=
  { hsv_lo := ⟨0, 100, 100⟩, hsv_hi := ⟨10, 255, 255⟩
    track_color := (255, 0, 0), highlight_color := (0, 0, 255)
    jpName := "赤色" }

/-- A 5×10 frame uniformly of an in-range yellow pixel: its mask is a
single solid region of exactly 50 pixels, surviving the morphology
because the whole frame is foreground. -/
def c2frame : HFrame := List.replicate 5 (List.replicate 10 ⟨25, 200, 200⟩)

/-- A one-entry log whose single detection is at frameIndex 5 (a sparse
log: frames 1–4 had no detection). -/
def c3sparse : List Row := [{ frame := 5, timestamp_ms := 0, x := 0, y := 0 }]

/-- A dense two-entry log: entry k has frameIndex k+1. -/
def c3dense : List Row :=
  [{ frame := 1, timestamp_ms := 0, x := 10, y := 10 },
   { frame := 2, timestamp_ms := 0, x := 20, y := 20 }]

/-- A two-entry log used against an exhausted (empty) source video. -/
def c7log : List Row :=
  [{ frame := 1, timestamp_ms := 0, x := 1, y := 1 },
   { frame := 2, timestamp_ms := 0, x := 2, y := 2 }]

theorem inRange_yellow1_subset (p : HSV) (h1 : inRangeB yLo1 yHi1 p = true) :
    inRangeB yLo2 yHi2 p = true := by
  simp only [inRangeB, yLo1, yHi1, yLo2, yHi2, Bool.and_eq_true, decide_eq_true_eq] at h1 ⊢
  omega

theorem yellowMask_eq_range2 (f : HFrame) :
    yellowMask f = fun x y => inRangeB yLo2 yHi2 (pixAt f x y) := by
  funext x y
  unfold yellowMask
  cases h1 : inRangeB yLo1 yHi1 (pixAt f x y)
  · simp
  · simp [inRange_yellow1_subset _ h1]

theorem detectFromMask_isSome_iff (m : Nat → Nat → Bool) (w h k a : Nat) :
    (∃ p, detectFromMask m w h k a = some p) ↔
      ∃ c, largestComp (cleanedComponents m w h k) = some c ∧ a < contourArea c := by
  unfold detectFromMask
  cases hl : largestComp (cleanedComponents m w h k) with
  | none => simp
  | some c =>
      by_cases hA : a < contourArea c
      · have hm : m00 c ≠ 0 := by
          unfold m00
          unfold contourArea at hA
          omega
        simp [hA, hm]
      · simp [hA]

theorem detectFromMask_centroid (m : Nat → Nat → Bool) (w h k a : Nat) :
    detectFromMask m w h k a = none ∨
      ∃ c, largestComp (cleanedComponents m w h k) = some c ∧ m00 c ≠ 0 ∧
        detectFromMask m w h k a = some (m10 c / m00 c, m01 c / m00 c) := by
  unfold detectFromMask
  cases hl : largestComp (cleanedComponents m w h k) with
  | none => left; rfl
  | some c =>
      by_cases hA : a < contourArea c
      · by_cases hm : m00 c = 0
        · left; simp [hA, hm]
        · right; exact ⟨c, rfl, hm, by simp [hA, hm]⟩
      · left; simp [hA]

/-- C1: in both detectors, a pixel whose HSV value lies in the second
declared hue range is in the combined detection mask even when it misses
the first range — the two range masks are OR-ed. -/
theorem c1_second_range_in_mask :
    (∀ (f : HFrame) (x y : Nat),
      inRangeB yLo2 yHi2 (pixAt f x y) = true →
      inRangeB yLo1 yHi1 (pixAt f x y) = false →
      yellowMask f x y = true) ∧
    (∀ (cc : ColorConfig) (hsv : HFrame) (x y : Nat),
      inRangeB redLo2 redHi2 (pixAt hsv x y) = true →
      inRangeB cc.hsv_lo cc.hsv_hi (pixAt hsv x y) = false →
      trackerMask redKey cc hsv x y = true) := by
  constructor
  · intro f x y h2 _
    unfold yellowMask
    simp [h2]
  · intro cc hsv x y h2 _
    unfold trackerMask
    simp [h2]

/-- Witness for C1 at concrete pixels: hue 33/sat 80 for yellow (in the
second range only), hue 175 for red (in the wrap-side range only). -/
theorem c1_second_range_in_mask_witness :
    yellowMask c1yframe 0 0 = true ∧ trackerMask redKey c1redCC c1rframe 0 0 = true :=
  ⟨c1_second_range_in_mask.1 c1yframe 0 0 (by decide) (by decide),
   c1_second_range_in_mask.2 c1redCC c1rframe 0 0 (by decide) (by decide)⟩

/-- C2 counterexample: a frame whose largest (and only) mask region has
area exactly the threshold 50 and nonzero m00, yet detect_yellow_ball
returns no detection — the code requires area strictly greater than the
threshold. -/
theorem c2_min_area_cex :
    detect_yellow_ball c2frame = none ∧
      (largestComp (cleanedComponents (yellowMask c2frame) (frameW c2frame)
        (frameH c2frame) 5)).map contourArea = some 50 := by
  constructor
  · decide
  · decide

/-- C2 amended: a detection is returned exactly when some region exists
and the largest region's area strictly exceeds the minimum-area
threshold (area equal to the threshold yields not found); stated for
detect_yellow_ball (threshold 50) and detect_colored_object (configured
threshold). -/
theorem c2_min_area_strict (f : HFrame) :
    ((∃ p, detect_yellow_ball f = some p) ↔
      ∃ c, largestComp (cleanedComponents (yellowMask f) (frameW f) (frameH f) 5) = some c ∧
        50 < contourArea c) ∧
    ∀ (cfg : Config) (color : String),
      ((∃ p, detect_colored_object cfg f color = some p) ↔
        ∃ cc c, List.lookup color cfg.colors = some cc ∧
          largestComp (cleanedComponents (trackerMask color cc (blurOf cfg f))
            (frameW (blurOf cfg f)) (frameH (blurOf cfg f))
            cfg.detection.morphology_kernel_size) = some c ∧
          cfg.detection.min_area < contourArea c) := by
  constructor
  · exact detectFromMask_isSome_iff _ _ _ _ _
  · intro cfg color
    unfold detect_colored_object
    cases hl : List.lookup color cfg.colors with
    | none => simp
    | some cc =>
        simp only []
        rw [detectFromMask_isSome_iff]
        simp

/-- C8: each detector is a total function returning either a coordinate
pair or no detection; a returned pair is always the truncated centroid
m10/m00, m01/m00 of the selected largest region, produced only under the
guard m00 ≠ 0. -/
theorem c8_guarded_centroid (f : HFrame) :
    (detect_yellow_ball f = none ∨
      ∃ c, largestComp (cleanedComponents (yellowMask f) (frameW f) (frameH f) 5) = some c ∧
        m00 c ≠ 0 ∧ detect_yellow_ball f = some (m10 c / m00 c, m01 c / m00 c)) ∧
    ∀ (cfg : Config) (color : String),
      (detect_colored_object cfg f color = none ∨
        ∃ cc c, List.lookup color cfg.colors = some cc ∧
          largestComp (cleanedComponents (trackerMask color cc (blurOf cfg f))
            (frameW (blurOf cfg f)) (frameH (blurOf cfg f))
            cfg.detection.morphology_kernel_size) = some c ∧
          m00 c ≠ 0 ∧
          detect_colored_object cfg f color = some (m10 c / m00 c, m01 c / m00 c)) := by
  constructor
  · exact detectFromMask_centroid _ _ _ _ _
  · intro cfg color
    unfold detect_colored_object
    cases hl : List.lookup color cfg.colors with
    | none => left; rfl
    | some cc =>
        simp only [hl]
        rcases detectFromMask_centroid (trackerMask color cc (blurOf cfg f))
            (frameW (blurOf cfg f)) (frameH (blurOf cfg f))
            cfg.detection.morphology_kernel_size cfg.detection.min_area with
          hnone | ⟨c, hc, hm, hres⟩
        · left
          exact hnone
        · right
          exact ⟨cc, c, rfl, hc, hm, hres⟩

/-- C10: the first yellow range is contained in the second, so the OR of
the two masks is the second mask alone and the detector agrees with the
single-range variant on every frame. -/
theorem c10_range_subsumption (f : HFrame) :
    detect_yellow_ball f = detect_yellow_ball_range2_only f := by
  unfold detect_yellow_ball detect_yellow_ball_range2_only
  rw [yellowMask_eq_range2]

theorem filter_frame_lt_nil (df : List Row) : ∀ (s b : Nat), b ≤ s →
    df.map (fun r => r.frame) = List.range' s df.length →
    df.filter (fun r => decide (r.frame < b)) = [] := by
  induction df with
  | nil => intro s b _ _; rfl
  | cons r rest ih =>
      intro s b hb hf
      rw [List.map_cons, List.length_cons, List.range'_succ] at hf
      have h1 : r.frame = s := (List.cons_eq_cons.mp hf).1
      have h2 := (List.cons_eq_cons.mp hf).2
      have hr : ¬ (r.frame < b) := by omega
      simp only [List.filter_cons, decide_eq_true_eq, hr, if_neg]
      exact ih (s + 1) b (by omega) h2

theorem filter_frame_lt_take (df : List Row) : ∀ (s m : Nat),
    df.map (fun r => r.frame) = List.range' s df.length →
    df.filter (fun r => decide (r.frame < s + m)) = df.take m := by
  induction df with
  | nil => intro s m _; simp
  | cons r rest ih =>
      intro s m hf
      rw [List.map_cons, List.length_cons, List.range'_succ] at hf
      have h1 : r.frame = s := (List.cons_eq_cons.mp hf).1
      have h2 := (List.cons_eq_cons.mp hf).2
      cases m with
      | zero =>
          have hr : ¬ (r.frame < s + 0) := by omega
          simp only [List.filter_cons, decide_eq_true_eq, hr, if_neg, List.take_zero]
          exact filter_frame_lt_nil rest (s + 1) (s + 0) (by omega) h2
      | succ m2 =>
          have hr : r.frame < s + (m2 + 1) := by omega
          simp only [List.filter_cons, decide_eq_true_eq, hr, if_pos, List.take_succ_cons]
          have h3 : rest.filter (fun x => decide (x.frame < s + (m2 + 1))) =
              rest.filter (fun x => decide (x.frame < (s + 1) + m2)) := by
            apply List.filter_congr
            intro a _
            rw [decide_eq_decide]
            omega
          rw [h3]
          exact congrArg (List.cons r) (ih (s + 1) m2 h2)

/-- C3 counterexample: with a sparse log whose only entry has
frameIndex 5, output step 0 draws that entry even though its frameIndex
exceeds 0+1 — the renderers take the first i+1 rows by position, not the
entries with frameIndex at most i+1. -/
theorem c3_rows_drawn_cex :
    pointsAt c3sparse 10 10 0 ≠ pointsAtSpec c3sparse 10 10 0 ∧
      pointsAt c3sparse 10 10 0 = [(0, 0)] ∧ pointsAtSpec c3sparse 10 10 0 = [] := by
  refine ⟨?_, by decide, by decide⟩
  decide

/-- C3 amended: the point list drawn at step i is the first i+1 log
entries (by row position), bounds-filtered; when the log is dense —
entry k has frameIndex k+1 — this coincides with the claim's "entries
with frameIndex at most i+1". -/
theorem c3_rows_drawn (df : List Row) (w h : Int) (i : Nat)
    (hd : df.map (fun r => r.frame) = List.range' 1 df.length) :
    pointsAt df w h i = pointsAtSpec df w h i := by
  unfold pointsAt pointsAtSpec
  have h1 : df.filter (fun r => decide (r.frame ≤ i + 1)) =
      df.filter (fun r => decide (r.frame < 1 + (i + 1))) := by
    apply List.filter_congr
    intro a _
    rw [decide_eq_decide]
    omega
  rw [h1, filter_frame_lt_take df 1 (i + 1) hd]

/-- Witness for C3 at a concrete dense log. -/
theorem c3_rows_drawn_witness :
    pointsAt c3dense 100 100 1 = pointsAtSpec c3dense 100 100 1 :=
  c3_rows_drawn c3dense 100 100 1 (by decide)

/-- C4: the polyline point list of output frame i+1 extends the one of
output frame i — the drawn trajectory only grows, both in the
bounds-filtering renderers (pointsAt) and the standalone renderer
(pointsSimple). -/
theorem c4_growing_polyline (df : List Row) (w h : Int) (i : Nat) :
    (∃ t, pointsAt df w h (i + 1) = pointsAt df w h i ++ t) ∧
    (∃ t, pointsSimple df (i + 1) = pointsSimple df i ++ t) := by
  constructor
  · refine ⟨((df[i + 1]?.toList.map fun r => (r.x, r.y)).filter (inBoundsB w h)), ?_⟩
    unfold pointsAt
    rw [List.take_succ, List.map_append, List.filter_append]
  · refine ⟨df[i + 1]?.toList.map fun r => (r.x, r.y), ?_⟩
    unfold pointsSimple
    rw [List.take_succ, List.map_append]

theorem extractAux_eq (d : HFrame → Option (Nat × Nat)) (fps : ℚ) :
    ∀ (frames : List HFrame) (n : Nat),
      extractAux d fps frames n = (frames.enumFrom n).filterMap fun jf =>
        (d jf.2).map fun p =>
          { frame := jf.1 + 1, timestamp_ms := round1 ((jf.1 : ℚ) * (1000 / fps)),
            x := p.1, y := p.2 } := by
  intro frames
  induction frames with
  | nil => intro n; rfl
  | cons f rest ih =>
      intro n
      rw [List.enumFrom_cons, List.filterMap_cons]
      cases hd : d f with
      | none => simp only [extractAux, hd, Option.map_none]; exact ih (n + 1)
      | some p =>
          simp only [extractAux, hd, Option.map_some]
          have hts : ((n + 1 : Nat) : ℚ) - 1 = (n : ℚ) := by push_cast; ring
          rw [hts]
          exact congrArg _ (ih (n + 1))

theorem extractAux_frame_gt (d : HFrame → Option (Nat × Nat)) (fps : ℚ) :
    ∀ (frames : List HFrame) (n : Nat) (r : Row),
      r ∈ extractAux d fps frames n → n < r.frame := by
  intro frames
  induction frames with
  | nil => intro n r h; simp [extractAux] at h
  | cons f rest ih =>
      intro n r h
      unfold extractAux at h
      cases hd : d f with
      | none =>
          rw [hd] at h
          exact Nat.lt_of_succ_lt (ih (n + 1) r h)
      | some p =>
          rw [hd] at h
          rcases List.mem_cons.mp h with h1 | h1
          · subst h1; exact Nat.lt_succ_self n
          · exact Nat.lt_of_succ_lt (ih (n + 1) r h1)

theorem extractAux_sorted (d : HFrame → Option (Nat × Nat)) (fps : ℚ) :
    ∀ (frames : List HFrame) (n : Nat),
      List.Pairwise (fun r s => r.frame < s.frame) (extractAux d fps frames n) := by
  intro frames
  induction frames with
  | nil => intro n; exact List.Pairwise.nil
  | cons f rest ih =>
      intro n
      unfold extractAux
      cases hd : d f with
      | none => exact ih (n + 1)
      | some p =>
          refine List.Pairwise.cons ?_ (ih (n + 1))
          intro s hs
          exact extractAux_frame_gt d fps rest (n + 1) s hs

theorem extractAux_timestamp (d : HFrame → Option (Nat × Nat)) (fps : ℚ) :
    ∀ (frames : List HFrame) (n : Nat) (r : Row),
      r ∈ extractAux d fps frames n →
      r.timestamp_ms = round1 (((r.frame : ℚ) - 1) * 1000 / fps) := by
  intro frames
  induction frames with
  | nil => intro n r h; simp [extractAux] at h
  | cons f rest ih =>
      intro n r h
      unfold extractAux at h
      cases hd : d f with
      | none =>
          rw [hd] at h
          exact ih (n + 1) r h
      | some p =>
          rw [hd] at h
          rcases List.mem_cons.mp h with h1 | h1
          · subst h1
            simp only []
            rw [mul_div_assoc]
          · exact ih (n + 1) r h1

/-- C5: both recorders emit exactly one row per decoded frame with a
detection, in decode order (frame numbering starts at 1 and advances on
every decoded frame, misses included), rows are in strictly increasing
frameIndex order, and every row's timestamp is
(frameIndex - 1) * 1000 / fps rounded to one decimal place. -/
theorem c5_recorder_rows (frames : List HFrame) (fps : ℚ) :
    (extract_ball_coordinates frames fps = frames.enum.filterMap fun jf =>
      (detect_yellow_ball jf.2).map fun p =>
        { frame := jf.1 + 1, timestamp_ms := round1 ((jf.1 : ℚ) * (1000 / fps)),
          x := p.1, y := p.2 }) ∧
    List.Pairwise (fun r s => r.frame < s.frame) (extract_ball_coordinates frames fps) ∧
    (∀ r ∈ extract_ball_coordinates frames fps,
      r.timestamp_ms = round1 (((r.frame : ℚ) - 1) * 1000 / fps)) ∧
    ∀ (cfg : Config) (color : String),
      extract_object_coordinates cfg color frames fps =
        (List.lookup color cfg.colors).map fun _ =>
          frames.enum.filterMap fun jf =>
            (detect_colored_object cfg jf.2 color).map fun p =>
              { frame := jf.1 + 1, timestamp_ms := round1 ((jf.1 : ℚ) * (1000 / fps)),
                x := p.1, y := p.2 } := by
  refine ⟨?_, extractAux_sorted _ _ frames 0, fun r hr => extractAux_timestamp _ _ frames 0 r hr, ?_⟩
  · rw [extract_ball_coordinates, extractAux_eq, List.enum]
  · intro cfg color
    unfold extract_object_coordinates
    cases hl : List.lookup color cfg.colors with
    | none => rfl
    | some cc =>
        rw [extractAux_eq, List.enum]
        simp

/-- C6 counterexample: given a zero-length log and no source video, both
renderers derive the canvas size from the empty log's coordinate
columns, whose maxima do not exist — `int(nan)` raises, so rendering
fails instead of skipping or emitting a zero-frame output. -/
theorem c6_empty_video_cex :
    create_trajectory_video_frames [] none = none ∧ sizeFromMax [] = none := by
  exact ⟨rfl, rfl⟩

/-- C6 amended: a zero-frame video yields an empty log from both
recorders without failing, and the renderer given an empty log together
with a source video emits a zero-frame output; only the no-source-video
path fails on an empty log (see the counterexample). -/
theorem c6_empty_video (fps : ℚ) :
    extract_ball_coordinates [] fps = [] ∧
    extract_object_coordinates default_config yellowKey [] fps = some [] ∧
    ∀ (srcFrames : List RFrame) (w h : Int),
      create_trajectory_video_frames [] (some (srcFrames, w, h)) = some [] := by
  refine ⟨rfl, rfl, fun s w h => ?_⟩
  simp [create_trajectory_video_frames, renderLoop]

/-- C7: compositing over a source video with fewer decodable frames than
the log still emits one output frame per log row; every output frame
past the source's end has the all-zero blank canvas as its background. -/
theorem c7_short_source_blank (df : List Row) (srcFrames : List RFrame) (w h : Int) :
    ∃ out, create_trajectory_video_frames df (some (srcFrames, w, h)) = some out ∧
      out.length = df.length ∧
      ∀ i, srcFrames.length ≤ i → i < df.length →
        (out.get? i).map OutFrame.background = some (blankFrame w h) := by
  refine ⟨renderLoop df w h (bgAt srcFrames w h), rfl, by simp [renderLoop], ?_⟩
  intro i hsrc hdf
  have h1 : (renderLoop df w h (bgAt srcFrames w h)).get? i =
      some (renderAt df w h (bgAt srcFrames w h i) i) := by
    unfold renderLoop
    rw [List.get?_eq_getElem?, List.getElem?_map, List.getElem?_range hdf]
    rfl
  rw [h1]
  have h2 : bgAt srcFrames w h i = blankFrame w h := by
    unfold bgAt
    rw [List.get?_eq_none.mpr hsrc]
  simp [renderAt, h2]

/-- Witness for C7: a two-row log over an exhausted (empty) source. -/
theorem c7_short_source_blank_witness :
    ∃ out, create_trajectory_video_frames c7log (some ([], 5, 5)) = some out ∧
      out.length = c7log.length ∧
      (out.get? 1).map OutFrame.background = some (blankFrame 5 5) := by
  obtain ⟨out, h1, h2, h3⟩ := c7_short_source_blank c7log [] 5 5
  exact ⟨out, h1, h2, h3 1 (by decide) (by decide)⟩

/-- C9: a missing or malformed config document (the except arm of
load_config) falls back to the built-in default catalog; constructing a
tracker is total, and the default catalog carries the six built-in
colours and the detection and trajectory sections with their documented
default values. -/
theorem c9_config_fallback :
    load_config none = default_config ∧
    (∀ c, load_config (some c) = c) ∧
    tracker_init none = default_config ∧
    tracker_init (some none) = default_config ∧
    (∀ c, tracker_init (some (some c)) = c) ∧
    default_config.colors.map Prod.fst =
      [yellowKey, redKey, blueKey, greenKey, orangeKey, purpleKey] ∧
    default_config.detection = { min_area := 50, morphology_kernel_size := 5, blur_kernel_size := 5 } ∧
    default_config.trajectory = { line_thickness := 6, highlight_circle_size := 8, fps := 60 } :=
  ⟨rfl, fun _ => rfl, rfl, rfl, fun _ => rfl, rfl, rfl, rfl⟩
